import Mathlib

/-!
Shallow embedding of sentinel-rs (src/src/main.rs): a supervisor that runs one
shell command, tees and captures its output, and reports lifecycle events to a
notification endpoint through a single FIFO worker.

Bytes are modelled as `Nat` (values 0..255).  Fallible I/O is modelled with
`Except`/`Option`.  External effects (the HTTP transport, the clock, the
hostname) are parameters of the model.
-/

/-- The Unicode replacement character U+FFFD, produced by the lossy decode
for each maximal malformed subpart. -/
def replChar : Char := Char.ofNat 0xFFFD

/-- Number of bytes of a UTF-8 sequence headed by lead byte `b1`
(only called with `0xC2 ≤ b1 ≤ 0xF4`). -/
def utf8SeqLen (b1 : Nat) : Nat :=
  if b1 < 0xE0 then 2 else if b1 < 0xF0 then 3 else 4

/-- Lower bound for the second byte of a sequence headed by `b1`. -/
def utf8Lo (b1 : Nat) : Nat :=
  if b1 = 0xE0 then 0xA0 else if b1 = 0xF0 then 0x90 else 0x80

/-- Upper bound for the second byte of a sequence headed by `b1`. -/
def utf8Hi (b1 : Nat) : Nat :=
  if b1 = 0xED then 0x9F else if b1 = 0xF4 then 0x8F else 0xBF

/-- Whether `b` is a valid byte at 0-based position `pos` (1 = second byte)
of a sequence headed by `b1`. -/
def utf8ContOk (b1 pos b : Nat) : Bool :=
  if pos = 1 then decide (utf8Lo b1 ≤ b ∧ b ≤ utf8Hi b1)
  else decide (0x80 ≤ b ∧ b < 0xC0)

/-- Scalar value of a complete well-formed UTF-8 sequence. -/
def utf8DecodeSeq : List Nat → Char
  | [b1, b2] => Char.ofNat ((b1 - 0xC0) * 0x40 + (b2 - 0x80))
  | [b1, b2, b3] => Char.ofNat ((b1 - 0xE0) * 0x1000 + (b2 - 0x80) * 0x40 + (b3 - 0x80))
  | [b1, b2, b3, b4] =>
    Char.ofNat ((b1 - 0xF0) * 0x40000 + (b2 - 0x80) * 0x1000 + (b3 - 0x80) * 0x40 + (b4 - 0x80))
  | _ => replChar

/-- Start a new sequence at byte `b` (no pending prefix): ASCII decodes
directly, an invalid lead byte becomes one replacement, a valid multi-byte
lead becomes the pending prefix. -/
def utf8Start (b : Nat) : List Nat × List Char :=
  if b < 0x80 then ([], [Char.ofNat b])
  else if b < 0xC2 then ([], [replChar])
  else if b ≤ 0xF4 then ([b], [])
  else ([], [replChar])

/-- One step of the streaming lossy decoder: `pending` is the current valid
strict prefix of a multi-byte sequence (possibly empty), `b` the next byte.
Returns the new pending prefix and the characters emitted.  An invalid
continuation byte replaces the pending maximal subpart with one U+FFFD and
restarts at `b`. -/
def utf8Step (pending : List Nat) (b : Nat) : List Nat × List Char :=
  match pending with
  | [] => utf8Start b
  | b1 :: _ =>
    if utf8ContOk b1 pending.length b then
      if pending.length + 1 = utf8SeqLen b1 then ([], [utf8DecodeSeq (pending ++ [b])])
      else (pending ++ [b], [])
    else
      let s := utf8Start b
      (s.1, replChar :: s.2)

/-- Streaming lossy decode: fold `utf8Step` over the bytes; a nonempty
pending prefix at end of input is one final replacement. -/
def utf8LossyGo (pending : List Nat) : List Nat → List Char
  | [] => if pending.isEmpty then [] else [replChar]
  | b :: rest =>
    let s := utf8Step pending b
    s.2 ++ utf8LossyGo s.1 rest

/-- Rust `String::from_utf8_lossy(buf).into_owned()`: well-formed sequences
decode to their scalar value, each maximal malformed subpart becomes one
U+FFFD. -/
def from_utf8_lossy (buf : List Nat) : String := String.mk (utf8LossyGo [] buf)

/-- Embedding of `tail_bytes` (src/src/main.rs lines 122-133): full lossy
decode when the buffer fits in `max` bytes, else the truncation marker naming
`max` followed by the lossy decode of exactly the last `max` bytes. -/
def tail_bytes (buf : List Nat) (max : Nat) : String :=
  if buf.length ≤ max then from_utf8_lossy buf
  else
    "… (truncated, showing last " ++ toString max ++ " bytes)\n" ++
      from_utf8_lossy (buf.drop (buf.length - max))

/-- Specification-side name for the truncation marker produced by
`tail_bytes` when it truncates. -/
def truncMarker (max : Nat) : String :=
  "… (truncated, showing last " ++ toString max ++ " bytes)\n"

/-- Specification-side name for the last `max` bytes of a buffer. -/
def lastBytes (buf : List Nat) (max : Nat) : List Nat := buf.drop (buf.length - max)

/-!
Stream relay (`read_stream`, src/src/main.rs lines 57-76).

A source stream is a list of read events: each `ReadEv.chunk c` is one
successful `reader.read` call returning the bytes `c` (an empty `c` is the
zero-length read signalling end of stream), and `ReadEv.fault e` is a read
call failing with I/O error `e`.  The sink is modelled by the list of its
`write_all` outcomes (`none` = success, `some e` = write fault with error
`e`) and the list of its `flush` outcomes, consumed one per teed chunk; the
flush outcome is discarded, mirroring `writer.flush().ok()`.  The relay
returns the accumulator and the bytes the sink received, or the first fault.
-/

/-- One read event of the source stream. -/
inductive ReadEv where
  | chunk (data : List Nat)
  | fault (e : String)
deriving DecidableEq, Repr

/-- The loop of `read_stream`: process events in order, stop at a zero-length
read (or when the event list is exhausted), propagate the first read or write
fault, append every chunk to the accumulator, and when `tee` is set write it
to the sink first and then flush, ignoring the flush outcome. -/
def readStreamGo (tee : Bool) :
    List ReadEv → List (Option String) → List (Option String) →
    List Nat → List Nat → Except String (List Nat × List Nat)
  | [], _, _, acc, sink => Except.ok (acc, sink)
  | ReadEv.fault e :: _, _, _, _, _ => Except.error e
  | ReadEv.chunk [] :: _, _, _, acc, sink => Except.ok (acc, sink)
  | ReadEv.chunk c :: rest, ws, fs, acc, sink =>
    if tee then
      match ws.headD none with
      | some e => Except.error e
      | none => readStreamGo tee rest ws.tail fs.tail (acc ++ c) (sink ++ c)
    else readStreamGo tee rest ws fs (acc ++ c) sink

/-- Embedding of `read_stream reader writer tee`: run the loop with empty
accumulator and an empty record of sink contents. -/
def read_stream (events : List ReadEv) (ws fs : List (Option String)) (tee : Bool) :
    Except String (List Nat × List Nat) :=
  readStreamGo tee events ws fs [] []

/-!
Notification path (`format_message`, `telegram_payload`, `tg_send`,
`start_notifier`, src/src/main.rs lines 16-55).

The environment is a list of key/value pairs; the HTTP transport is a
parameter `net` taking the JSON payload and returning `none` on success or
`some e` on a delivery fault (network error, non-2xx, timeout).  The
timestamp and hostname are parameters.
-/

/-- Rust `std::env::var`, restricted to lookup. -/
def envVar (env : List (String × String)) (key : String) : Option String :=
  (env.find? (fun p => p.1 = key)).map (fun p => p.2)

/-- Embedding of `format_message` (lines 16-18). -/
def format_message (ts host text : String) : String :=
  "[" ++ ts ++ "] [" ++ host ++ "]\n" ++ text

/-- The JSON body of `telegram_payload` (lines 20-26). -/
structure TgPayload where
  chat_id : String
  text : String
  disable_web_page_preview : Bool
deriving DecidableEq, Repr

/-- Embedding of `telegram_payload` (lines 20-26). -/
def telegram_payload (chat_id body : String) : TgPayload :=
  ⟨chat_id, body, true⟩

/-- Embedding of `tg_send` (lines 28-43): read the two required environment
values (failing with the lookup error when absent), format the body with the
timestamp and host, and post the payload; returns `none` on success and
`some e` on the first error. -/
def tg_send (env : List (String × String)) (ts host : String)
    (net : TgPayload → Option String) (text : String) : Option String :=
  match envVar env "TG_BOT_TOKEN" with
  | none => some "environment variable not found"
  | some _ =>
    match envVar env "TG_CHAT_ID" with
    | none => some "environment variable not found"
    | some chat_id => net (telegram_payload chat_id (format_message ts host text))

/-- The dispatcher worker of `start_notifier` (lines 45-55): consume the
queued messages in enqueue order; each delivery is attempted exactly once
with its fault, if any, merely recorded (the worker logs it and continues).
Returns the list of (message, delivery outcome) pairs in processing order. -/
def runWorker (deliver : String → Option String) (msgs : List String) :
    List (String × Option String) :=
  msgs.map (fun m => (m, deliver m))

/-!
Lifecycle orchestrator (`main`, src/src/main.rs lines 146-232) and process
runner outcome.

`run_bash` either fails to spawn (I/O error string) or yields an `Output`
with `status.code()` (`none` when the child was terminated by a signal) and
the two captured buffers.  `main` is modelled as a pure function of the
argument list, the run outcome, and the delivery function; its observable
behaviour is the process exit code, whether `run_bash` was reached, the
worker delivery attempts, and whether usage text was printed to stderr.
-/

/-- Outcome of `run_bash` for one invocation. -/
inductive RunOutcome where
  | spawnFailed (e : String)
  | exited (code : Option Nat) (out err : List Nat)
deriving DecidableEq, Repr

/-- How the argument list of `main` (lines 148-174) is classified. -/
inductive Invocation where
  | usageEmpty
  | helpShown
  | versionShown
  | usageDashOnly
  | runCmd (command : String)
deriving DecidableEq, Repr

/-- Embedding of the argument handling of `main` (lines 148-174): empty
argument list is a usage error; a lone help or version flag short-circuits;
a lone `--` is a usage error; otherwise the command is the argument tokens
(after an optional leading `--`) joined with single spaces. -/
def parseArgs (args : List String) : Invocation :=
  if args.isEmpty then Invocation.usageEmpty
  else if args.length = 1 ∧ (args.headD "" = "--help" ∨ args.headD "" = "-h") then
    Invocation.helpShown
  else if args.length = 1 ∧ (args.headD "" = "--version" ∨ args.headD "" = "-V") then
    Invocation.versionShown
  else if args.headD "" = "--" then
    if args.length = 1 then Invocation.usageDashOnly
    else Invocation.runCmd (String.intercalate " " (args.drop 1))
  else Invocation.runCmd (String.intercalate " " args)

/-- Specification-side name for the start notification text (line 177). -/
def startedMessage (command : String) : String := "Started\n" ++ command

/-- Specification-side name for the terminal notification text, one per
branch of the classification in `main` (lines 179-229). -/
def terminalMessage (outcome : RunOutcome) : String :=
  match outcome with
  | RunOutcome.spawnFailed e => "Failed to execute command: " ++ e
  | RunOutcome.exited (some 0) out err =>
    "Finished successfully with exit code 0.\nStdout:\n" ++ tail_bytes out 1500 ++
      "\nStderr:\n" ++ tail_bytes err 1500
  | RunOutcome.exited (some code) out err =>
    "Failed with exit code: " ++ toString code ++ ".\nStdout:\n" ++ tail_bytes out 1500 ++
      "\nStderr:\n" ++ tail_bytes err 1500
  | RunOutcome.exited none out err =>
    "Process terminated by signal.\nStdout:\n" ++ tail_bytes out 1500 ++
      "\nStderr:\n" ++ tail_bytes err 1500

/-- The messages `main` enqueues for a run of command `cmd` with outcome
`outcome`, in enqueue order, traced branch by branch from lines 176-229:
the start notification is sent before `run_bash`, then each branch sends
exactly one terminal notification. -/
def mainMessages (cmd : String) (outcome : RunOutcome) : List String :=
  match outcome with
  | RunOutcome.spawnFailed e =>
    ["Started\n" ++ cmd, "Failed to execute command: " ++ e]
  | RunOutcome.exited (some 0) out err =>
    ["Started\n" ++ cmd,
      "Finished successfully with exit code 0.\nStdout:\n" ++ tail_bytes out 1500 ++
        "\nStderr:\n" ++ tail_bytes err 1500]
  | RunOutcome.exited (some code) out err =>
    ["Started\n" ++ cmd,
      "Failed with exit code: " ++ toString code ++ ".\nStdout:\n" ++ tail_bytes out 1500 ++
        "\nStderr:\n" ++ tail_bytes err 1500]
  | RunOutcome.exited none out err =>
    ["Started\n" ++ cmd,
      "Process terminated by signal.\nStdout:\n" ++ tail_bytes out 1500 ++
        "\nStderr:\n" ++ tail_bytes err 1500]

/-- Observable behaviour of one invocation of the program. -/
structure SysResult where
  exitCode : Nat
  attemptedRun : Bool
  attempts : List (String × Option String)
  usagePrinted : Bool
deriving DecidableEq, Repr

/-- Embedding of `main` (lines 146-232): classify the arguments; usage
errors exit with code 2 after printing usage and enqueue nothing; the help
and version flags return (exit code 0) without notifying; otherwise `main`
sends the start notification, calls `run_bash`, sends one terminal
notification, drops the sender and joins the worker, and in every such path
falls off the end of `main` (or returns from the spawn-error arm), so the
process exit code is 0.  The exit code never consults the run outcome or
the delivery results. -/
def mainRun (args : List String) (outcome : RunOutcome)
    (deliver : String → Option String) : SysResult :=
  match parseArgs args with
  | Invocation.usageEmpty => ⟨2, false, [], true⟩
  | Invocation.helpShown => ⟨0, false, [], true⟩
  | Invocation.versionShown => ⟨0, false, [], false⟩
  | Invocation.usageDashOnly => ⟨2, false, [], true⟩
  | Invocation.runCmd cmd =>
    ⟨0, true, runWorker deliver (mainMessages cmd outcome), false⟩

/-!
Helper lemmas about the stream relay.
-/

/-- The relay never looks at a flush outcome: its result is the same for any
two flush-outcome lists (the code writes `writer.flush().ok()`). -/
theorem readStreamGo_flush_indep :
    ∀ (events : List ReadEv) (tee : Bool) (ws fs1 fs2 acc sink : _),
      readStreamGo tee events ws fs1 acc sink = readStreamGo tee events ws fs2 acc sink := by
  intro events
  induction events with
  | nil => intro tee ws fs1 fs2 acc sink; rfl
  | cons ev rest ih =>
    intro tee ws fs1 fs2 acc sink
    cases ev with
    | fault e => rfl
    | chunk c =>
      cases c with
      | nil => rfl
      | cons b bs =>
        cases tee with
        | false =>
          simpa only [readStreamGo, Bool.false_eq_true, if_false] using
            ih false ws fs1 fs2 (acc ++ b :: bs) sink
        | true =>
          cases h : ws.headD none with
          | some e => simp only [readStreamGo, h, if_true]
          | none =>
            simp only [readStreamGo, h, if_true]
            exact ih true ws.tail fs1.tail fs2.tail (acc ++ b :: bs) (sink ++ b :: bs)

/-- Stepping over a prefix of nonempty fault-free chunks with `tee = false`:
the accumulator grows by their concatenation, the sink is untouched. -/
theorem readStreamGo_clean_false :
    ∀ (cs : List (List Nat)), (∀ c ∈ cs, c ≠ []) →
      ∀ (evs : List ReadEv) (ws fs acc sink : _),
        readStreamGo false (cs.map ReadEv.chunk ++ evs) ws fs acc sink =
          readStreamGo false evs ws fs (acc ++ cs.flatten) sink := by
  intro cs
  induction cs with
  | nil => intro _ evs ws fs acc sink; simp
  | cons c cs ih =>
    intro h evs ws fs acc sink
    have hc : c ≠ [] := h c (List.mem_cons_self c cs)
    cases c with
    | nil => exact absurd rfl hc
    | cons b bs =>
      have := ih (fun x hx => h x (List.mem_cons_of_mem _ hx)) evs ws fs (acc ++ b :: bs) sink
      simp only [List.map_cons, List.cons_append, readStreamGo, Bool.false_eq_true, if_false,
        List.append_eq]
      rw [this, List.flatten_cons, ← List.append_assoc]

/-- Stepping over a prefix of nonempty fault-free chunks with `tee = true`
whose writes all succeed: accumulator and sink both grow by their
concatenation. -/
theorem readStreamGo_clean_true :
    ∀ (cs : List (List Nat)), (∀ c ∈ cs, c ≠ []) →
      ∀ (evs : List ReadEv) (ws fs acc sink : _),
        readStreamGo true (cs.map ReadEv.chunk ++ evs)
            (List.replicate cs.length none ++ ws) fs acc sink =
          readStreamGo true evs ws fs (acc ++ cs.flatten) (sink ++ cs.flatten) := by
  intro cs
  induction cs with
  | nil => intro _ evs ws fs acc sink; simp
  | cons c cs ih =>
    intro h evs ws fs acc sink
    have hc : c ≠ [] := h c (List.mem_cons_self c cs)
    cases c with
    | nil => exact absurd rfl hc
    | cons b bs =>
      simp only [List.map_cons, List.cons_append, List.length_cons, List.replicate_succ,
        readStreamGo, List.headD_cons, List.tail_cons, if_true, List.append_eq]
      rw [ih (fun x hx => h x (List.mem_cons_of_mem _ hx)) evs ws fs.tail (acc ++ b :: bs)
        (sink ++ b :: bs)]
      rw [readStreamGo_flush_indep evs true ws fs.tail fs]
      rw [List.flatten_cons, ← List.append_assoc, ← List.append_assoc]

/-- Every error the relay returns originates in a read fault of the source
or a write fault of the sink. -/
theorem readStreamGo_error_origin :
    ∀ (events : List ReadEv) (tee : Bool) (ws fs acc sink : _) (e : String),
      readStreamGo tee events ws fs acc sink = Except.error e →
        ReadEv.fault e ∈ events ∨ some e ∈ ws := by
  intro events
  induction events with
  | nil => intro tee ws fs acc sink e h; exact absurd h (by simp [readStreamGo])
  | cons ev rest ih =>
    intro tee ws fs acc sink e h
    cases ev with
    | fault e2 =>
      left
      have : e2 = e := by simpa [readStreamGo] using h
      simp [this]
    | chunk c =>
      cases c with
      | nil => exact absurd h (by simp [readStreamGo])
      | cons b bs =>
        cases tee with
        | false =>
          simp only [readStreamGo, Bool.false_eq_true, if_false] at h
          rcases ih false ws fs (acc ++ b :: bs) sink e h with h1 | h2
          · exact Or.inl (List.mem_cons_of_mem _ h1)
          · exact Or.inr h2
        | true =>
          cases ws with
          | nil =>
            simp only [readStreamGo, List.headD_nil, List.tail_nil, if_true] at h
            rcases ih true [] fs.tail (acc ++ b :: bs) (sink ++ b :: bs) e h with h1 | h2
            · exact Or.inl (List.mem_cons_of_mem _ h1)
            · exact absurd h2 (List.not_mem_nil _)
          | cons w tws =>
            cases w with
            | some e2 =>
              have : e2 = e := by simpa [readStreamGo] using h
              exact Or.inr (by simp [this])
            | none =>
              simp only [readStreamGo, List.headD_cons, List.tail_cons, if_true] at h
              rcases ih true tws fs.tail (acc ++ b :: bs) (sink ++ b :: bs) e h with h1 | h2
              · exact Or.inl (List.mem_cons_of_mem _ h1)
              · exact Or.inr (List.mem_cons_of_mem _ h2)

/-- An absent required environment value makes every `tg_send` call fail
with the environment-lookup error, whatever the transport does. -/
theorem tg_send_missing_env (env : List (String × String)) (ts host : String)
    (net : TgPayload → Option String) (text : String)
    (h : envVar env "TG_BOT_TOKEN" = none ∨ envVar env "TG_CHAT_ID" = none) :
    tg_send env ts host net text = some "environment variable not found" := by
  unfold tg_send
  cases htok : envVar env "TG_BOT_TOKEN" with
  | none => rfl
  | some tok =>
    cases hchat : envVar env "TG_CHAT_ID" with
    | none => rfl
    | some chat =>
      rcases h with h1 | h2
      · exact absurd htok (by simp [h1])
      · exact absurd hchat (by simp [h2])

/-- The shape of the message list `main` enqueues: start first, then the
terminal notification of the outcome. -/
theorem mainMessages_eq (cmd : String) (outcome : RunOutcome) :
    mainMessages cmd outcome = [startedMessage cmd, terminalMessage outcome] := by
  cases outcome with
  | spawnFailed e => rfl
  | exited code out err =>
    cases code with
    | none => rfl
    | some n => cases n with
      | zero => rfl
      | succ m => rfl

/-- C3: for every byte sequence `b` and every `max`, when `len b ≤ max` the
tail is the full lossy decode of `b` with no truncation marker added, and
when `len b > max` it is the truncation marker naming `max` followed by the
lossy decode of exactly the last `max` bytes, whose source length is exactly
`max` (so never exceeds `max`). -/
theorem C3_tail_bytes_spec (b : List Nat) (max : Nat) :
    (b.length ≤ max → tail_bytes b max = from_utf8_lossy b) ∧
    (max < b.length →
      tail_bytes b max = truncMarker max ++ from_utf8_lossy (lastBytes b max) ∧
        (lastBytes b max).length = max) := by
  constructor
  · intro h
    simp only [tail_bytes, if_pos h]
  · intro h
    refine ⟨?_, ?_⟩
    · simp only [tail_bytes, if_neg (Nat.not_le.mpr h), truncMarker, lastBytes,
        String.append_assoc]
    · simp only [lastBytes, List.length_drop]
      omega

/-- Closed instantiation of C3 at concrete inputs: a short buffer decodes in
full, a 26-byte buffer with `max = 10` is truncated to its last 10 bytes. -/
theorem C3_tail_bytes_spec_witness :
    ([104, 101, 108, 108, 111] : List Nat).length ≤ 10 ∧
    tail_bytes [104, 101, 108, 108, 111] 10 = from_utf8_lossy [104, 101, 108, 108, 111] ∧
    10 < ((List.range 26).map (fun i => i + 97)).length ∧
    (tail_bytes ((List.range 26).map (fun i => i + 97)) 10 =
        truncMarker 10 ++ from_utf8_lossy (lastBytes ((List.range 26).map (fun i => i + 97)) 10) ∧
      (lastBytes ((List.range 26).map (fun i => i + 97)) 10).length = 10) :=
  ⟨by decide, (C3_tail_bytes_spec [104, 101, 108, 108, 111] 10).1 (by decide), by decide,
    (C3_tail_bytes_spec ((List.range 26).map (fun i => i + 97)) 10).2 (by decide)⟩

/-- C8 counterexample: for the empty byte sequence, `tail_bytes` with
`max = 0` takes the no-truncation branch and yields the empty string, not
the truncation marker. -/
theorem C8_counterexample : tail_bytes [] 0 = "" ∧ tail_bytes [] 0 ≠ truncMarker 0 := by
  constructor
  · rfl
  · decide

/-- C8 amended: for every nonempty byte sequence `b`, `tail_bytes b 0`
yields just the truncation marker (its decoded payload is empty). -/
theorem C8_tail_zero (b : List Nat) (h : b ≠ []) : tail_bytes b 0 = truncMarker 0 := by
  cases b with
  | nil => exact absurd rfl h
  | cons x xs =>
    simp only [tail_bytes, List.length_cons, Nat.le_zero, truncMarker]
    rw [if_neg (by omega), Nat.sub_zero, List.drop_eq_nil_of_le (by simp)]
    show _ ++ from_utf8_lossy [] = _
    have : from_utf8_lossy [] = "" := rfl
    rw [this]
    simp

/-- Closed instantiation of C8 amended at the one-byte buffer. -/
theorem C8_tail_zero_witness :
    ([0] : List Nat) ≠ [] ∧ tail_bytes [0] 0 = truncMarker 0 :=
  ⟨by decide, C8_tail_zero [0] (by decide)⟩

/-- C1: evaluation of the embedded `main` at the failing inputs.  The code
falls off the end of `main` (or returns from the spawn-error arm) in every
run path, so the process exit code is 0 even when the child exits 101, when
the child cannot be spawned, and when the child is terminated by a signal —
contradicting the spec and the repository e2e tests, which demand 101, a
fixed non-zero spawn-failure code, and a fixed signal code. -/
theorem C1_exit_code_always_zero :
    (mainRun ["--", "exit", "101"] (RunOutcome.exited (some 101) [] [])
        (fun _ => none)).exitCode = 0 ∧
    (mainRun ["--", "true"] (RunOutcome.spawnFailed "No such file or directory")
        (fun _ => none)).exitCode = 0 ∧
    (mainRun ["--", "sleep", "60"] (RunOutcome.exited none [] [])
        (fun _ => none)).exitCode = 0 := by
  refine ⟨rfl, rfl, rfl⟩

/-- C2 counterexample: with an empty environment both required configuration
values are absent, yet the program still runs the child command (here with
outcome exit 0) and only then fails each delivery attempt inside the worker;
no startup error precedes execution. -/
theorem C2_counterexample :
    envVar [] "TG_BOT_TOKEN" = none ∧
    envVar [] "TG_CHAT_ID" = none ∧
    (mainRun ["ls"] (RunOutcome.exited (some 0) [] [])
        (tg_send [] "2025-01-01 00:00:00" "host" (fun _ => none))).attemptedRun = true ∧
    (mainRun ["ls"] (RunOutcome.exited (some 0) [] [])
        (tg_send [] "2025-01-01 00:00:00" "host" (fun _ => none))).attempts =
      [("Started\nls", some "environment variable not found"),
        ("Finished successfully with exit code 0.\nStdout:\n\nStderr:\n",
          some "environment variable not found")] := by
  refine ⟨rfl, rfl, rfl, rfl⟩

/-- C2 amended: absence of a required configuration value is not a startup
error and does not prevent execution: whenever the arguments name a command,
the program still reaches `run_bash`, and every notification delivery
attempt fails inside the dispatcher worker with the environment-lookup
error, where it is merely logged. -/
theorem C2_no_startup_config_check (env : List (String × String)) (args : List String)
    (cmd : String) (outcome : RunOutcome) (ts host : String) (net : TgPayload → Option String)
    (hmiss : envVar env "TG_BOT_TOKEN" = none ∨ envVar env "TG_CHAT_ID" = none)
    (hrun : parseArgs args = Invocation.runCmd cmd) :
    (mainRun args outcome (tg_send env ts host net)).attemptedRun = true ∧
    ∀ p ∈ (mainRun args outcome (tg_send env ts host net)).attempts,
      p.2 = some "environment variable not found" := by
  constructor
  · simp [mainRun, hrun]
  · intro p hp
    simp only [mainRun, hrun, runWorker, List.mem_map] at hp
    obtain ⟨m, _, hm⟩ := hp
    rw [← hm]
    exact tg_send_missing_env env ts host net m hmiss

/-- Closed instantiation of C2 amended: token present but chat id absent,
command `ls`; the child is still run and both deliveries fail with the
environment-lookup error. -/
theorem C2_no_startup_config_check_witness :
    (mainRun ["ls"] (RunOutcome.exited (some 0) [] [])
        (tg_send [("TG_BOT_TOKEN", "t")] "ts" "h" (fun _ => none))).attemptedRun = true ∧
    (mainRun ["ls"] (RunOutcome.exited (some 0) [] [])
        (tg_send [("TG_BOT_TOKEN", "t")] "ts" "h" (fun _ => none))).attempts =
      [("Started\nls", some "environment variable not found"),
        ("Finished successfully with exit code 0.\nStdout:\n\nStderr:\n",
          some "environment variable not found")] :=
  ⟨(C2_no_startup_config_check [("TG_BOT_TOKEN", "t")] ["ls"] "ls"
      (RunOutcome.exited (some 0) [] []) "ts" "h" (fun _ => none) (Or.inr rfl) rfl).1, rfl⟩

/-- The worker attempts exactly the queued messages, in order. -/
theorem runWorker_map_fst (deliver : String → Option String) :
    ∀ msgs : List String, (runWorker deliver msgs).map Prod.fst = msgs := by
  intro msgs
  induction msgs with
  | nil => rfl
  | cons m ms ih =>
    simp only [runWorker, List.map_cons] at ih ⊢
    rw [ih]

/-- C4: the dispatcher worker attempts deliveries exactly in enqueue order
(FIFO, one pass), and every full run enqueues exactly the two notifications
start-then-terminal, for every command, outcome (hence any output size), and
delivery behaviour — so the start notification is attempted before its
terminal notification. -/
theorem C4_fifo_exactly_two (cmd : String) (outcome : RunOutcome)
    (deliver : String → Option String) :
    (∀ msgs : List String, (runWorker deliver msgs).map Prod.fst = msgs) ∧
    mainMessages cmd outcome = [startedMessage cmd, terminalMessage outcome] ∧
    runWorker deliver (mainMessages cmd outcome) =
      [(startedMessage cmd, deliver (startedMessage cmd)),
        (terminalMessage outcome, deliver (terminalMessage outcome))] := by
  refine ⟨?_, mainMessages_eq cmd outcome, ?_⟩
  · exact runWorker_map_fst deliver
  · rw [mainMessages_eq cmd outcome]
    rfl

/-- C5: a delivery fault on one message neither stops the worker nor causes
a retry — the worker attempts every queued message exactly once in order,
for every delivery behaviour including always-failing ones — and neither the
process exit code nor whether the command is executed depends on the
delivery behaviour. -/
theorem C5_delivery_fault_isolated (deliver d1 d2 : String → Option String)
    (msgs : List String) (args : List String) (outcome : RunOutcome) :
    (runWorker deliver msgs).map Prod.fst = msgs ∧
    (runWorker deliver msgs).length = msgs.length ∧
    (mainRun args outcome d1).exitCode = (mainRun args outcome d2).exitCode ∧
    (mainRun args outcome d1).attemptedRun = (mainRun args outcome d2).attemptedRun := by
  refine ⟨runWorker_map_fst deliver msgs, by simp [runWorker], ?_, ?_⟩ <;>
    cases h : parseArgs args <;> simp [mainRun, h]

/-- C9: invoking with no arguments, or with the separator followed by
nothing, exits with code 2, prints usage to the error stream, does not run
any command, and enqueues no notification — whatever the would-be outcome or
delivery behaviour. -/
theorem C9_usage_error_paths (outcome : RunOutcome) (deliver : String → Option String) :
    mainRun [] outcome deliver = ⟨2, false, [], true⟩ ∧
    mainRun ["--"] outcome deliver = ⟨2, false, [], true⟩ :=
  ⟨rfl, rfl⟩

/-- C6: a read fault aborts a relay over any fault-free prefix of nonempty
chunks (with or without tee), a write fault aborts a teed relay, in each
case propagating exactly that fault; the error result carries no bytes, so
partial accumulated data is discarded and bytes are returned only on clean
end of stream. -/
theorem C6_relay_fault_aborts :
    (∀ (cs : List (List Nat)), (∀ c ∈ cs, c ≠ []) →
      ∀ (e : String) (rest : List ReadEv) (ws fs : List (Option String)),
        read_stream (cs.map ReadEv.chunk ++ ReadEv.fault e :: rest) ws fs false =
          Except.error e) ∧
    (∀ (cs : List (List Nat)), (∀ c ∈ cs, c ≠ []) →
      ∀ (e : String) (rest : List ReadEv) (ws fs : List (Option String)),
        read_stream (cs.map ReadEv.chunk ++ ReadEv.fault e :: rest)
          (List.replicate cs.length none ++ ws) fs true = Except.error e) ∧
    (∀ (cs : List (List Nat)), (∀ c ∈ cs, c ≠ []) →
      ∀ (c : List Nat), c ≠ [] →
        ∀ (e : String) (rest : List ReadEv) (ws fs : List (Option String)),
          read_stream (cs.map ReadEv.chunk ++ ReadEv.chunk c :: rest)
            (List.replicate cs.length none ++ some e :: ws) fs true = Except.error e) := by
  refine ⟨?_, ?_, ?_⟩
  · intro cs h e rest ws fs
    unfold read_stream
    rw [readStreamGo_clean_false cs h (ReadEv.fault e :: rest) ws fs [] []]
    rfl
  · intro cs h e rest ws fs
    unfold read_stream
    rw [readStreamGo_clean_true cs h (ReadEv.fault e :: rest) ws fs [] []]
    rfl
  · intro cs h c hc e rest ws fs
    unfold read_stream
    rw [readStreamGo_clean_true cs h (ReadEv.chunk c :: rest) (some e :: ws) fs [] []]
    cases c with
    | nil => exact absurd rfl hc
    | cons b bs => rfl

/-- Closed instantiation of C6: a read fault after one clean chunk aborts
without tee and with tee, and a write fault on the second chunk aborts a
teed relay, each with its own fault. -/
theorem C6_relay_fault_aborts_witness :
    read_stream [ReadEv.chunk [1, 2], ReadEv.fault "rf"] [] [] false = Except.error "rf" ∧
    read_stream [ReadEv.chunk [1, 2], ReadEv.fault "rf"] (List.replicate 1 none ++ []) []
      true = Except.error "rf" ∧
    read_stream [ReadEv.chunk [1, 2], ReadEv.chunk [3]]
      (List.replicate 1 none ++ some "wf" :: []) [] true = Except.error "wf" :=
  ⟨C6_relay_fault_aborts.1 [[1, 2]] (by decide) "rf" [] [] [],
    C6_relay_fault_aborts.2.1 [[1, 2]] (by decide) "rf" [] [] [],
    C6_relay_fault_aborts.2.2 [[1, 2]] (by decide) [3] (by decide) "wf" [] [] []⟩

/-- C7: over any fault-free source of nonempty chunks, the relay without tee
returns the concatenated source bytes while the sink receives nothing, and
the relay with tee (all writes succeeding) returns the same bytes with the
sink receiving the identical content. -/
theorem C7_relay_tee (cs : List (List Nat)) (h : ∀ c ∈ cs, c ≠ [])
    (ws fs : List (Option String)) :
    read_stream (cs.map ReadEv.chunk) ws fs false = Except.ok (cs.flatten, []) ∧
    read_stream (cs.map ReadEv.chunk) (List.replicate cs.length none) fs true =
      Except.ok (cs.flatten, cs.flatten) := by
  constructor
  · unfold read_stream
    have step := readStreamGo_clean_false cs h [] ws fs [] []
    simpa [readStreamGo] using step
  · unfold read_stream
    have step := readStreamGo_clean_true cs h [] [] fs [] []
    simpa [readStreamGo] using step

/-- Closed instantiation of C7 at a two-chunk source with failing flushes
available in the sink model. -/
theorem C7_relay_tee_witness :
    read_stream ([[1, 2], [3]].map ReadEv.chunk) [some "w"] [some "f"] false =
      Except.ok ([1, 2, 3], []) ∧
    read_stream ([[1, 2], [3]].map ReadEv.chunk) (List.replicate 2 none) [some "f"] true =
      Except.ok ([1, 2, 3], [1, 2, 3]) :=
  C7_relay_tee [[1, 2], [3]] (by decide) [some "w"] [some "f"]

/-- C10: the relay result never depends on flush outcomes (the code discards
them with `.ok()`); with all reads and writes succeeding it returns the full
bytes even when every flush fails; and every error it returns originates in
a read fault or a write fault — flush faults never propagate. -/
theorem C10_flush_fault_ignored :
    (∀ (events : List ReadEv) (ws fs1 fs2 : List (Option String)) (tee : Bool),
      read_stream events ws fs1 tee = read_stream events ws fs2 tee) ∧
    (∀ (cs : List (List Nat)), (∀ c ∈ cs, c ≠ []) → ∀ fs : List (Option String),
      read_stream (cs.map ReadEv.chunk) (List.replicate cs.length none) fs true =
        Except.ok (cs.flatten, cs.flatten)) ∧
    (∀ (events : List ReadEv) (ws fs : List (Option String)) (tee : Bool) (e : String),
      read_stream events ws fs tee = Except.error e →
        ReadEv.fault e ∈ events ∨ some e ∈ ws) := by
  refine ⟨?_, ?_, ?_⟩
  · intro events ws fs1 fs2 tee
    exact readStreamGo_flush_indep events tee ws fs1 fs2 [] []
  · intro cs h fs
    unfold read_stream
    have step := readStreamGo_clean_true cs h [] [] fs [] []
    simpa [readStreamGo] using step
  · intro events ws fs tee e h
    exact readStreamGo_error_origin events tee ws fs [] [] e h

/-- Closed instantiation of C10: flush outcomes do not change the result, a
run whose only fault is a failing flush still returns all bytes, and a
concrete error run traces back to its read fault. -/
theorem C10_flush_fault_ignored_witness :
    read_stream [ReadEv.chunk [5]] [none] [some "a"] true =
      read_stream [ReadEv.chunk [5]] [none] [some "b"] true ∧
    read_stream [ReadEv.chunk [5]] (List.replicate 1 none) [some "flushfault"] true =
      Except.ok ([5], [5]) ∧
    (ReadEv.fault "x" ∈ [ReadEv.fault "x"] ∨ some "x" ∈ ([] : List (Option String))) :=
  ⟨C10_flush_fault_ignored.1 [ReadEv.chunk [5]] [none] [some "a"] [some "b"] true,
    C10_flush_fault_ignored.2.1 [[5]] (by decide) [some "flushfault"],
    C10_flush_fault_ignored.2.2 [ReadEv.fault "x"] [] [] false "x" rfl⟩
